import Mathlib

/-!
# Verification of the aixact-ai Evidence Aggregation & Truth-Scoring Engine

Shallow embedding of the fact-checking core of the repository:
`freeFactCheck.js` (the `FreeFactChecker` class) and the `/api/analyze`
pipeline of `server.js`.  Numbers are modelled as rationals (`ℚ`), JS
strings as `String`, JS arrays as `List`.  External collaborators
(network fetches, the `natural` sentiment analyzer, the `stopword`
tokenizer pipeline, the WHATWG URL parser, `encodeURIComponent`) are
modelled as oracle functions collected in a `Ctx` structure; everything
with decision logic is translated from the source.
-/

/-! ## String helpers

JS string primitives (`includes`, `toLowerCase`, `split`, `trim`,
`startsWith`, `endsWith`), modelled over `List Char` with structural
recursion so that concrete computations reduce in the kernel.  All
inputs in this development are ASCII, where these agree with the JS
(UTF-16 code-unit based) semantics. -/

/-- Boolean prefix test on character lists (`l₁` is a prefix of `l₂`). -/
def isPrefB : List Char → List Char → Bool
  | [], _ => true
  | _ :: _, [] => false
  | a :: as, b :: bs => a == b && isPrefB as bs

/-- Boolean infix test: `pat` occurs as a contiguous substring of the list. -/
def isInfB (pat : List Char) : List Char → Bool
  | [] => isPrefB pat []
  | b :: bs => isPrefB pat (b :: bs) || isInfB pat bs

/-- JS `hay.includes(pat)`. -/
def strContains (hay pat : String) : Bool := isInfB pat.data hay.data

/-- JS `s.toLowerCase()` (ASCII). -/
def lowerStr (s : String) : String := ⟨s.data.map Char.toLower⟩

/-- JS `s.startsWith(pre)`. -/
def startsB (s pre : String) : Bool := isPrefB pre.data s.data

/-- JS `s.endsWith(post)`. -/
def endsB (s post : String) : Bool := isPrefB post.data.reverse s.data.reverse

/-- JS `s.trim()` (strip leading and trailing whitespace). -/
def trimStr (s : String) : String :=
  ⟨((s.data.dropWhile Char.isWhitespace).reverse.dropWhile Char.isWhitespace).reverse⟩

/-- JS `s.length` (code units; chars for ASCII inputs). -/
def strLen (s : String) : Nat := s.data.length

/-- Generic splitting of a character list at separator characters; every
separator ends the current piece, so consecutive separators yield empty
pieces, as with JS `split(c)` for a single character. -/
def splitCharAux (p : Char → Bool) (cur : List Char) : List Char → List String
  | [] => [⟨cur.reverse⟩]
  | c :: rest =>
    if p c then ⟨cur.reverse⟩ :: splitCharAux p [] rest
    else splitCharAux p (c :: cur) rest

/-- JS `s.split(sep)` for a one-character separator. -/
def splitChar (p : Char → Bool) (s : String) : List String := splitCharAux p [] s.data

/-- First-occurrence deduplication, the order produced by iterating a JS
`Set` built from a list. -/
def dedupFirst : List String → List String := go []
where
  go (seen : List String) : List String → List String
    | [] => []
    | x :: xs => if x ∈ seen then go seen xs else x :: go (x :: seen) xs

/-- Correspondence of `isPrefB` with `List.IsPrefix`. -/
theorem isPrefB_iff (p l : List Char) : isPrefB p l = true ↔ p <+: l := by
  induction p generalizing l with
  | nil => simp [isPrefB]
  | cons a as ih =>
    cases l with
    | nil => simp [isPrefB]
    | cons b bs =>
      simp [isPrefB, List.cons_prefix_cons, ih]

/-- Correspondence of `isInfB` with `List.IsInfix`. -/
theorem isInfB_iff (p l : List Char) : isInfB p l = true ↔ p <:+: l := by
  induction l with
  | nil =>
    simp only [isInfB]
    rw [isPrefB_iff]
    simp
  | cons b bs ih =>
    simp only [isInfB, Bool.or_eq_true, isPrefB_iff, ih]
    exact Iff.symm List.infix_cons_iff

/-- Correspondence of `strContains` with substring occurrence. -/
theorem strContains_iff (hay pat : String) :
    strContains hay pat = true ↔ pat.data <:+: hay.data := isInfB_iff _ _

/-! ## Data model

`freeFactCheck.js` evidence items and results.  The JS objects carry a
`timestamp` field from the wall clock, which is outside the embedding
and omitted. -/

/-- An evidence item built by `FreeFactChecker.searchEvidence`
(`{source, title, snippet, url, relevance}`, with `fullText` added by
the enrichment pass when article extraction succeeds). -/
structure FCEv where
  source : String
  title : String
  snippet : String
  url : String
  relevance : ℚ
  fullText : Option String := none
deriving DecidableEq

/-- The `stats` object of `computeTruthScore`.  A `neutral` field is read
by the server with `stats.neutral || 0` but is never written anywhere in
the checker, so it is always 0 and not carried here. -/
structure TruthStats where
  supports : Nat
  refutes : Nat
deriving DecidableEq

/-- Return value of `computeTruthScore`. -/
structure TruthAssessment where
  truthScore : ℚ
  stats : TruthStats
deriving DecidableEq

/-- Return value of `FreeFactChecker.checkClaim` (the server reads
`truthDetails.stats`, modelled here directly as `truthDetails`). -/
structure CheckResult where
  claim : String
  processedClaim : String
  sentiment : ℚ
  fallacies : List String
  evidence : List FCEv
  truthScore : ℚ
  truthDetails : TruthStats
  confidence : ℚ
  verdict : String
  explanation : String
deriving DecidableEq

/-- An evidence object as merged by the server pipeline.  The mapped
FreeFactChecker items additionally carry `source_type` and `credibility`
fields, but nothing downstream of the merge ever reads them (citations
recompute credibility per URL), so they are not carried here; the
external items instead carry an unread `verdict` field, likewise
omitted. -/
structure MEv where
  url : String
  source : String
  title : String
  summary : String
deriving DecidableEq

/-- Result of WHATWG `new URL(s)`, as consumed by the code. -/
structure URLParts where
  protocol : String
  hostname : String

/-- One hit of the Wikipedia search API (`data.query.search`). -/
structure WikiHit where
  title : String
  snippet : String

/-- A DuckDuckGo instant answer (`Heading`, `AbstractText`, `AbstractURL`;
a missing `AbstractURL` is the empty string, as `data.AbstractURL || ''`). -/
structure DdgAns where
  heading : String
  abstractText : String
  abstractURL : String

/-- Oracles for the external collaborators the core consumes (network
fetches, text normalization, sentiment analysis, the URL parser).  Each
request is evaluated against one fixed `Ctx`, matching the spec's
determinism-modulo-network statement. -/
structure Ctx where
  /-- Oracle for `preprocessText`: apos-to-lex-form, tokenizer and stopword removal
  are external libraries; the whole normalization is one oracle. -/
  preprocess : String → String
  /-- Oracle for `analyzer.getSentiment` over the tokenized text (library `natural`). -/
  sentimentOf : String → ℚ
  /-- Oracle for `detectLogicalFallacies`: the JS regex engine is external; the
  oracle returns the list of matched fallacy names. -/
  fallaciesOf : String → List String
  /-- Wikipedia search API results for a query; a failed call is `[]`
  (the `catch {}` around the fetch). -/
  wikiSearch : String → List WikiHit
  /-- DuckDuckGo instant-answer API; `none` covers both a failed call and
  a response without `AbstractText`-bearing payload. -/
  ddgAnswer : String → Option DdgAns
  /-- Oracle for `encodeURIComponent`. -/
  enc : String → String
  /-- Oracle for `fetchArticleText` (returns `""` on any failure). -/
  fetchArticle : String → String
  /-- WHATWG `new URL(s)`; `none` means the constructor throws. -/
  parseURL : String → Option URLParts
  /-- Server-side `fetchWikipediaEvidence` (thin I/O wrapper; `none` on
  any failure or missing extract). -/
  fetchWikiEv : String → Option MEv
  /-- Server-side `fetchDuckDuckGoEvidence` (`[]` on failure). -/
  fetchDdgEv : String → List MEv
  /-- Server-side `fetchNewsApiEvidence` (`[]` on failure). -/
  fetchNewsEv : String → List MEv
  /-- Whether `NEWSAPI_KEY` is configured. -/
  newsKey : Bool
  /-- Oracle for the `resolveQueryText` URL branch: readable-text extraction for a URL
  input; `none` means it threw (no readable text). -/
  urlFetch : String → Option String

/-! ## FreeFactChecker: scoring primitives -/

/-- Refuting lexical cues of `computeTruthScore`. -/
def cueRefutes (t : String) : Bool :=
  strContains t "false" || strContains t "not true" || strContains t "misinformation"

/-- Supporting lexical cues of `computeTruthScore`. -/
def cueSupports (t : String) : Bool :=
  strContains t "true" || strContains t "confirmed"

/-- The per-item text scanned by `computeTruthScore`:
`` `${item.title} ${item.snippet} ${item.fullText || ''}`.toLowerCase() ``. -/
def evidenceText (e : FCEv) : String :=
  lowerStr (e.title ++ " " ++ e.snippet ++ " " ++ e.fullText.getD "")

/-- Model of `FreeFactChecker.computeTruthScore`.  The source iterates once over
the evidence incrementing both counters independently per item; counting
with two filters yields the same tallies.  (The source's
`const lower = claim.toLowerCase()` is computed but never used.) -/
def computeTruthScore (claim : String) (evidence : List FCEv) : TruthAssessment :=
  if evidence.length = 0 then
    { truthScore := 1/2, stats := { supports := 0, refutes := 0 } }
  else
    let supports := (evidence.filter fun e => cueSupports (evidenceText e)).length
    let refutes := (evidence.filter fun e => cueRefutes (evidenceText e)).length
    let total := supports + refutes
    if total = 0 then { truthScore := 1/2, stats := { supports := supports, refutes := refutes } }
    else { truthScore := (refutes : ℚ) / (total : ℚ),
           stats := { supports := supports, refutes := refutes } }

/-- Model of `FreeFactChecker.calculateConfidence`.  (`parseFloat` applied by the
caller to the numeric result is the identity.) -/
def calculateConfidence (sentiment : ℚ) (fallacies : List String) (evidence : List FCEv) : ℚ :=
  let score : ℚ := 1/2
  let score := score - min (4/10) (|sentiment| * (25/100))
  let score := score - min (6/10) ((fallacies.length : ℚ) * (15/100))
  let score := if evidence.length > 0 then score + 2/10 else score
  max (1/100) (min (99/100) score)

/-- Model of `FreeFactChecker.determineVerdictFromTruthScore`. -/
def determineVerdictFromTruthScore (score : ℚ) : String :=
  if score > 6/10 then "FALSE"
  else if score < 4/10 then "TRUE"
  else "NEEDS VERIFICATION"

/-- Model of `FreeFactChecker.buildExplanation` (its `claim`, `truthDetails` and
`evidence` parameters are never read). -/
def buildExplanation (verdict : String) : String :=
  if verdict = "TRUE" then "Multiple reliable sources support this claim."
  else if verdict = "FALSE" then "Reliable sources contradict this claim."
  else "Evidence is inconclusive or mixed."

/-- The domain tier table of `FreeFactChecker.classifySourceQuality`,
applied to the (already lowercased) host string. -/
def tierScore (host : String) : ℚ :=
  if endsB host ".gov" || endsB host ".gov.in" || endsB host ".edu" then 95/100
  else if strContains host "who.int" || strContains host "nih.gov" ||
          strContains host "cdc.gov" || strContains host "un.org" then 95/100
  else if strContains host "wikipedia.org" then 85/100
  else if strContains host "bbc." || strContains host "reuters." ||
          strContains host "apnews." || strContains host "nytimes." ||
          strContains host "guardian." || strContains host "washingtonpost." ||
          strContains host "wsj." || strContains host "ft.com" ||
          strContains host "aljazeera." || strContains host "bloomberg." ||
          strContains host "cnn." || strContains host "nbcnews." ||
          strContains host "cbsnews." || strContains host "abcnews." ||
          strContains host "indiatoday." || strContains host "thehindu." ||
          strContains host "hindustantimes." || strContains host "indianexpress."
    then 8/10
  else if strContains host "facebook." || strContains host "instagram." ||
          strContains host "tiktok." || strContains host "whatsapp." then 25/100
  else 1/2

/-- Model of `FreeFactChecker.classifySourceQuality`.  `parseHost` models
`new URL(url).hostname`; on a parse failure (`catch`) the raw input
string itself is used as the host.  A falsy (empty) url short-circuits
to 0.4. -/
def classifySourceQuality (parseHost : String → Option String) (url : String) : ℚ :=
  if url = "" then 4/10
  else
    let host := match parseHost url with
      | some h => lowerStr h
      | none => lowerStr url
    tierScore host

/-- Model of `FreeFactChecker.calculateRelevance`: Jaccard similarity of the
normalized token sets (JS `Set` semantics via first-occurrence dedup). -/
def calculateRelevance (preprocess : String → String) (query text : String) : ℚ :=
  let q := splitChar (· == ' ') (preprocess query)
  let t := splitChar (· == ' ') (preprocess text)
  let qSet := dedupFirst q
  let inter := qSet.filter fun x => t.contains x
  let union := dedupFirst (q ++ t)
  if union.length ≠ 0 then (inter.length : ℚ) / (union.length : ℚ) else 0

/-- Model of `FreeFactChecker.generateSearchQueries`. -/
def generateSearchQueries (claim : String) : List String :=
  [claim, claim ++ " fact check", claim ++ " site:wikipedia.org",
   claim ++ " news", claim ++ " myth", claim ++ " scientific study"]

/-! ## FreeFactChecker: the common-sense answer layer -/

/-- Model of `FreeFactChecker.makeDirectVerdict`.  The JS stats object carries a
single field (`{refutes: 1}` or `{supports: 1}`); the server reads the
missing one back with `|| 0`, modelled as 0. -/
def makeDirectVerdict (claim verdict : String) (confidence : ℚ) (explanation : String) :
    CheckResult :=
  { claim := claim, processedClaim := claim, sentiment := 0, fallacies := [],
    evidence := [],
    truthScore := if verdict = "FALSE" then 98/100 else 2/100,
    truthDetails :=
      if verdict = "FALSE" then { supports := 0, refutes := 1 }
      else { supports := 1, refutes := 0 },
    confidence := confidence, verdict := verdict, explanation := explanation }

/-- One entry of the inline `nationalityRules` table in `checkKnownFacts`. -/
structure NatRule where
  entity : String
  trueNat : String
  wrong : List String

/-- The inline `nationalityRules` table.  (The file-level `NATIONALITY_KB`
constant is never read by any function and is not modelled.) -/
def nationalityRules : List NatRule :=
  [{ entity := "narendra modi", trueNat := "indian",
     wrong := ["american", "german", "british", "french"] }]

/-- The nationality loop of `checkKnownFacts`.  Note the source computes
`entityMatch` from the literal strings "narendra"/"modi", not from the
rule entry. -/
def natCheck (raw : String) : Option CheckResult :=
  nationalityRules.findSome? fun rule =>
    let entityMatch := strContains (lowerStr raw) "narendra" && strContains (lowerStr raw) "modi"
    if entityMatch then
      match rule.wrong.find? (fun w => strContains (lowerStr raw) w) with
      | some w =>
        some (makeDirectVerdict raw "FALSE" (99/100)
          (rule.entity ++ " is " ++ rule.trueNat ++ ", not " ++ w ++ "."))
      | none =>
        if strContains (lowerStr raw) rule.trueNat then
          some (makeDirectVerdict raw "TRUE" (99/100)
            (rule.entity ++ " is " ++ rule.trueNat ++ "."))
        else none
    else none

/-- The non-vegetarian item list of `checkKnownFacts`. -/
def nonVegItems : List String :=
  ["chicken", "fish", "mutton", "pork", "beef", "egg", "eggs"]

/-- The vegetarian block of `checkKnownFacts`: fires only when the
processed text mentions "veg"/"vegetarian" and the raw claim names a
non-vegetarian item; otherwise control falls through. -/
def vegCheck (text raw : String) : Option CheckResult :=
  if strContains text "veg" || strContains text "vegetarian" then
    (nonVegItems.find? fun item => strContains (lowerStr raw) item).map fun item =>
      makeDirectVerdict raw "FALSE" (99/100) (item ++ " is not vegetarian.")
  else none

/-- The "water is wet" block of `checkKnownFacts`. -/
def waterCheck (raw : String) : Option CheckResult :=
  if strContains (lowerStr raw) "water" && strContains (lowerStr raw) "wet" then
    some (makeDirectVerdict raw "TRUE" (99/100) "Water is wet.")
  else none

/-- Model of `FreeFactChecker.checkKnownFacts` (the Lexical Fact Layer):
nationality rules, then the vegetarian rule, then the water-wet rule,
else no match. -/
def checkKnownFacts (processed raw : String) : Option CheckResult :=
  let text := lowerStr processed
  match natCheck raw with
  | some r => some r
  | none =>
    match vegCheck text raw with
    | some r => some r
    | none => waterCheck raw

/-! ## FreeFactChecker: evidence retrieval (`searchEvidence`)

The raw API calls are oracles; the shaping done by the source (taking
the top 3 Wikipedia hits, building the article URL, stripping HTML tags
from snippets, URL deduplication via the `seen` set, the early break
once more than 20 results are collected, and enrichment of the first 5
items) is modelled faithfully. -/

/-- JS `snippet.replace(/<[^>]*>/g, '')`: drop every complete
`<`…`>` span; a `<` with no later `>` is left in place (the regex does
not match there).  Fuel-indexed for structural recursion; the fuel is
instantiated with the text length, which bounds the recursion depth. -/
def stripTagsAux : Nat → List Char → List Char
  | 0, l => l
  | _ + 1, [] => []
  | fuel + 1, c :: rest =>
    if c = '<' then
      match rest.dropWhile (fun d => !(d == '>')) with
      | [] => c :: rest
      | _ :: tail => stripTagsAux fuel tail
    else c :: stripTagsAux fuel rest

/-- HTML-tag stripping of Wikipedia snippets. -/
def stripTags (s : String) : String := ⟨stripTagsAux s.data.length s.data⟩

/-- JS `title.replace(/\s+/g, '_')`: each maximal whitespace run becomes
one underscore.  Fuel-indexed as `stripTagsAux`. -/
def wsToUnderscoreAux : Nat → List Char → List Char
  | 0, l => l
  | _ + 1, [] => []
  | fuel + 1, c :: rest =>
    if c.isWhitespace then '_' :: wsToUnderscoreAux fuel (rest.dropWhile Char.isWhitespace)
    else c :: wsToUnderscoreAux fuel rest

/-- Whitespace-run replacement used in the Wikipedia article URL. -/
def wsToUnderscore (s : String) : String := ⟨wsToUnderscoreAux s.data.length s.data⟩

/-- The article URL built for a Wikipedia search hit:
`https://en.wikipedia.org/wiki/` ++ `encodeURIComponent(title.replace(/\s+/g,'_'))`. -/
def wikiUrlOf (enc : String → String) (title : String) : String :=
  "https://en.wikipedia.org/wiki/" ++ enc (wsToUnderscore title)

/-- State of the `searchEvidence` loop: the `seen` URL set and the
`results` array (in push order). -/
structure SearchState where
  seen : List String
  results : List FCEv

/-- Processing of one Wikipedia hit inside the per-query loop
(`for (const item of data.query.search.slice(0, 3))`). -/
def wikiPush (ctx : Ctx) (claim : String) (st : SearchState) (item : WikiHit) : SearchState :=
  let url := wikiUrlOf ctx.enc item.title
  if st.seen.contains url then st
  else
    { seen := url :: st.seen,
      results := st.results ++
        [{ source := "Wikipedia", title := item.title,
           snippet := stripTags item.snippet, url := url,
           relevance := calculateRelevance ctx.preprocess claim item.snippet }] }

/-- The Wikipedia part of one query iteration of `searchEvidence`. -/
def wikiStep (ctx : Ctx) (claim q : String) (st : SearchState) : SearchState :=
  ((ctx.wikiSearch q).take 3).foldl (wikiPush ctx claim) st

/-- The DuckDuckGo part of one query iteration of `searchEvidence`
(fires only when `data.AbstractText` is truthy; the URL may be empty). -/
def ddgStep (ctx : Ctx) (claim q : String) (st : SearchState) : SearchState :=
  match ctx.ddgAnswer q with
  | none => st
  | some d =>
    if d.abstractText ≠ "" then
      let url := d.abstractURL
      if st.seen.contains url then st
      else
        { seen := url :: st.seen,
          results := st.results ++
            [{ source := "DuckDuckGo", title := d.heading,
               snippet := d.abstractText, url := url,
               relevance := calculateRelevance ctx.preprocess claim d.abstractText }] }
    else st

/-- The query loop of `searchEvidence`: per query one Wikipedia call and
one DuckDuckGo call (2 retrieval calls), then
`if (results.length > 20) break;`.  Returns the collected results and
the number of retrieval calls issued. -/
def searchLoop (ctx : Ctx) (claim : String) : List String → SearchState → Nat → List FCEv × Nat
  | [], st, calls => (st.results, calls)
  | q :: qs, st, calls =>
    let st := wikiStep ctx claim q st
    let st := ddgStep ctx claim q st
    if st.results.length > 20 then (st.results, calls + 2)
    else searchLoop ctx claim qs st (calls + 2)

/-- The enrichment pass of `searchEvidence`: the first 5 results get
`fullText` from `fetchArticleText` when it returns text. -/
def enrich (ctx : Ctx) (items : List FCEv) : List FCEv :=
  items.mapIdx fun i e =>
    if i < 5 then
      let text := ctx.fetchArticle e.url
      if text ≠ "" then { e with fullText := some text } else e
    else e

/-- Model of `FreeFactChecker.searchEvidence`: expanded queries, per-query
Wikipedia + DuckDuckGo retrieval with URL dedup and the length-21 break,
then enrichment.  Returns the evidence list and the retrieval-call
count. -/
def searchEvidence (ctx : Ctx) (claim : String) : List FCEv × Nat :=
  let r :=
    searchLoop ctx claim (generateSearchQueries claim) { seen := [], results := [] } 0
  (enrich ctx r.1, r.2)

/-- Model of `FreeFactChecker.checkClaim`: the Lexical Fact Layer short-circuit,
else sentiment + fallacies + retrieval + truth scoring + confidence +
verdict + explanation.  Returns the result together with the number of
evidence-retrieval calls performed. -/
def checkClaim (ctx : Ctx) (claim : String) : CheckResult × Nat :=
  let processed := ctx.preprocess claim
  match checkKnownFacts processed claim with
  | some r => (r, 0)
  | none =>
    let sentiment := ctx.sentimentOf processed
    let fallacies := ctx.fallaciesOf processed
    let se := searchEvidence ctx claim
    let evidence := se.1
    let ta := computeTruthScore claim evidence
    let confidence := calculateConfidence sentiment fallacies evidence
    let verdict := determineVerdictFromTruthScore ta.truthScore
    ({ claim := claim, processedClaim := processed, sentiment := sentiment,
       fallacies := fallacies, evidence := evidence,
       truthScore := ta.truthScore, truthDetails := ta.stats,
       confidence := confidence, verdict := verdict,
       explanation := buildExplanation verdict }, se.2)

/-! ## Server pipeline (`server.js`, `/api/analyze`) -/

/-- Model of `isLikelyUrl`: the string parses as a URL and the protocol matches
`/^https?:/`. -/
def isLikelyUrl (ctx : Ctx) (value : String) : Bool :=
  match ctx.parseURL value with
  | some u => startsB u.protocol "http:" || startsB u.protocol "https:"
  | none => false

/-- Result shape of `parseUserInput` (normalized is the input itself). -/
structure UserInput where
  original : String
  normalized : String
  intent : String

/-- Model of `parseUserInput`. -/
def parseUserInput (ctx : Ctx) (text : String) : UserInput :=
  { original := text, normalized := text,
    intent :=
      if isLikelyUrl ctx text then "url_article_verification"
      else if endsB text "?" then "question_verification"
      else "factual_verification" }

/-- Strip one trailing question mark (JS `replace(/\?$/, '')`). -/
def dropQMark (s : String) : String :=
  if endsB s "?" then ⟨s.data.dropLast⟩ else s

/-- Model of `extractCanonicalClaim`: lowercase + trim, strip a leading
`is `/`are ` question prefix (`replace(/^is\s+/, '')` removes the word
and the whole whitespace run) and a trailing `?`, else return the
normalized input unchanged. -/
def extractCanonicalClaim (input : UserInput) : String :=
  let t := trimStr (lowerStr input.normalized)
  if startsB t "is " then
    trimStr (dropQMark ⟨(t.data.drop 2).dropWhile Char.isWhitespace⟩)
  else if startsB t "are " then
    trimStr (dropQMark ⟨(t.data.drop 3).dropWhile Char.isWhitespace⟩)
  else input.normalized

/-- Model of `buildRelevanceKeywords`: whitespace-split tokens longer than 3
characters, plus the Modi expansion, deduplicated with JS `Set`
(first-occurrence) semantics. -/
def buildRelevanceKeywords (claim : String) : List String :=
  let c := (splitChar Char.isWhitespace (lowerStr claim)).filter fun x => x.data.length > 3
  let c :=
    if strContains (lowerStr claim) "modi" then
      c ++ ["narendra", "modi", "india", "indian", "prime minister", "nationality", "citizen"]
    else c
  dedupFirst c

/-- Model of `isRelevantEvidence`: some keyword occurs in the lowercased
title+summary text. -/
def isRelevantEvidence (item : MEv) (keywords : List String) : Bool :=
  keywords.any fun k => strContains (lowerStr (item.title ++ " " ++ item.summary)) k

/-- The fold underlying `mergeEvidence`: a JS `Map` keyed by `url`,
keeping the first item per URL and dropping items with a falsy (empty)
URL; `[...map.values()]` preserves insertion order. -/
def mergeAux : List MEv → List String → List MEv
  | [], _ => []
  | e :: rest, seenUrls =>
    if e.url ≠ "" ∧ e.url ∉ seenUrls then e :: mergeAux rest (e.url :: seenUrls)
    else mergeAux rest seenUrls

/-- Model of `mergeEvidence`. -/
def mergeEvidence (a b : List MEv) : List MEv := mergeAux (a ++ b) []

/-- JS `Number(x.toFixed(2))` for the nonnegative confidence values of
the pipeline: round to the nearest hundredth, ties away from zero
(ECMA-262 `toFixed` picks the larger candidate on a tie). -/
def round2 (q : ℚ) : ℚ := (⌊q * 100 + 1/2⌋ : ℚ) / 100

/-- The Verdict Reconciler (server.js step 9, lines 186-220), operating
on the locals `fcVerdict`/`fcConfidence` (already `||`-defaulted by the
caller), `fc.truthScore`, `crossSourceAgreement` and
`sourceCredibilityScore`.  Returns the final verdict and confidence. -/
def reconcile (fcVerdict : String) (fcConfidence truthScore agreement cred : ℚ) :
    String × ℚ :=
  let isStrongFC :=
    ((fcVerdict = "TRUE" ∨ fcVerdict = "FALSE") ∧ fcConfidence ≥ 80/100) ∨
      truthScore ≥ 90/100 ∨ truthScore ≤ 10/100
  if isStrongFC then (fcVerdict, fcConfidence)
  else
    let v :=
      if agreement ≥ 70/100 ∨ truthScore ≥ 70/100 then "TRUE"
      else if agreement ≤ 30/100 ∨ truthScore ≤ 30/100 then "FALSE"
      else "NEEDS VERIFICATION"
    let calibrated := max ((7/10) * max (|truthScore - 1/2| * 2) agreement) ((1/2) * cred)
    let calibrated := (calibrated + fcConfidence) / 2
    (v, max (1/100) (min (99/100) (round2 calibrated)))

/-- The final-confidence formula as the spec states it (for claim
comparison): the average of the calibrator's confidence and the
agreement/credibility mix, clamped to [0.01, 0.99], with no rounding
step.  Modelled from the spec, to be compared with `reconcile`. -/
def specFinalConfidence (fcConfidence truthScore agreement cred : ℚ) : ℚ :=
  max (1/100) (min (99/100)
    ((max ((7/10) * max (|truthScore - 1/2| * 2) agreement) ((1/2) * cred) + fcConfidence) / 2))

/-- Model of `gatherEvidence`: short-circuits for empty/URL queries and queries
longer than 200 characters; otherwise one Wikipedia call, one DuckDuckGo
call and (when a news key is configured) one NewsAPI call, keeping the
first 5 items.  Returns the items and the retrieval-call count. -/
def gatherEvidence (ctx : Ctx) (originalQuery metaSource : String) : List MEv × Nat :=
  if originalQuery = "" ∨ isLikelyUrl ctx originalQuery ∨ metaSource = "url" then ([], 0)
  else if strLen originalQuery > 200 then ([], 0)
  else
    let wiki := match ctx.fetchWikiEv originalQuery with
      | some w => [w]
      | none => []
    let ddg := ctx.fetchDdgEv originalQuery
    let news := if ctx.newsKey then ctx.fetchNewsEv originalQuery else []
    ((wiki ++ ddg ++ news).take 5, 2 + (if ctx.newsKey then 1 else 0))

/-- The result fields of `/api/analyze` the claims are about, plus the
total number of evidence-retrieval calls the request performed. -/
structure AnalyzeResult where
  finalVerdict : String
  finalConfidence : ℚ
  crossSourceAgreement : ℚ
  sourceCredibilityScore : ℚ
  filteredEvidence : List MEv
  fc : CheckResult
  retrievalCalls : Nat

/-- The `/api/analyze` pipeline of `server.js` (steps 1-9).  `none`
models an error response (empty query: 400; unreadable URL input
thrown inside `resolveQueryText`: 502).  Steps 10-11 only shape the
response from the values carried in `AnalyzeResult`. -/
def analyzeCore (ctx : Ctx) (rawInput : String) : Option AnalyzeResult :=
  let rawI := trimStr rawInput
  if rawI = "" then none
  else
    let input := parseUserInput ctx rawI
    let claim := extractCanonicalClaim input
    let canonicalClaim := if claim = "" then input.original else claim
    let metaSource := if isLikelyUrl ctx canonicalClaim then "url" else "text"
    let resolved : Option Unit :=
      if metaSource = "url" then (ctx.urlFetch canonicalClaim).map fun _ => ()
      else some ()
    match resolved with
    | none => none
    | some _ =>
      let shouldGatherExternal := strLen canonicalClaim > 5
      let ge :=
        if shouldGatherExternal then gatherEvidence ctx canonicalClaim metaSource
        else ([], 0)
      let externalEvidence := ge.1
      let cc := checkClaim ctx claim
      let fc := cc.1
      let fcMapped : List MEv := fc.evidence.map fun e =>
        { url := e.url, source := e.source,
          title := if e.title ≠ "" then e.title else e.source,
          summary := e.snippet }
      let allEvidence := mergeEvidence fcMapped externalEvidence
      let relevanceKeywords := buildRelevanceKeywords canonicalClaim
      let filteredEvidence :=
        (allEvidence.filter fun e => isRelevantEvidence e relevanceKeywords).take 20
      let parseHost := fun u => (ctx.parseURL u).map URLParts.hostname
      let sourceCredibilityScore :=
        if filteredEvidence.length ≠ 0 then
          ((filteredEvidence.map fun e => classifySourceQuality parseHost e.url).sum) /
            (filteredEvidence.length : ℚ)
        else 1/2
      let totalStats := fc.truthDetails.supports + fc.truthDetails.refutes
      let crossSourceAgreement :=
        if totalStats > 0 then
          ((fc.truthDetails.supports + fc.truthDetails.refutes : ℕ) : ℚ) / (totalStats : ℚ)
        else 1/2
      let fcVerdict := if fc.verdict = "" then "NEEDS_VERIFICATION" else fc.verdict
      let fcConfidence := if fc.confidence = 0 then 1/2 else fc.confidence
      let fin :=
        reconcile fcVerdict fcConfidence fc.truthScore crossSourceAgreement
          sourceCredibilityScore
      some { finalVerdict := fin.1, finalConfidence := fin.2,
             crossSourceAgreement := crossSourceAgreement,
             sourceCredibilityScore := sourceCredibilityScore,
             filteredEvidence := filteredEvidence, fc := fc,
             retrievalCalls := ge.2 + cc.2 }

/-! ## C2: the strong-signal dominance rule -/

/-- Claim C2: in the Verdict Reconciler, whenever the strong-signal
condition holds — the evidence-based verdict is TRUE or FALSE and its
confidence is at least 0.80, or the truth score is at least 0.90 or at
most 0.10 — the final verdict equals the FreeFactChecker verdict and the
final confidence equals its confidence, for every value of the
cross-source agreement and the source credibility score. -/
theorem strong_signal_locks_fc_verdict (v : String) (c ts ag cred : ℚ)
    (h : ((v = "TRUE" ∨ v = "FALSE") ∧ c ≥ 80/100) ∨ ts ≥ 90/100 ∨ ts ≤ 10/100) :
    reconcile v c ts ag cred = (v, c) := by
  unfold reconcile
  rw [if_pos h]

/-- Witness for C2 at a concrete strong input: verdict TRUE with
confidence 0.85 survives agreement 0 and credibility 0. -/
theorem strong_signal_locks_fc_verdict_witness :
    (((("TRUE" : String) = "TRUE" ∨ ("TRUE" : String) = "FALSE") ∧ (85/100 : ℚ) ≥ 80/100) ∨
        (1/2 : ℚ) ≥ 90/100 ∨ (1/2 : ℚ) ≤ 10/100) ∧
      reconcile "TRUE" (85/100) (1/2) 0 0 = ("TRUE", 85/100) :=
  ⟨Or.inl ⟨Or.inl rfl, by norm_num⟩,
    strong_signal_locks_fc_verdict "TRUE" (85/100) (1/2) 0 0
      (Or.inl ⟨Or.inl rfl, by norm_num⟩)⟩

/-! ## C3: the weak-signal (pipeline) branch

The claim omits the rounding step: the code computes
`Number(calibrated.toFixed(2))`, rounding the averaged confidence to two
decimal places before clamping. -/

/-- Claim C3 (counterexample): at verdict TRUE, confidence 0.675, truth
score 1/3, agreement 1 and credibility 0.5 the strong-signal condition
fails, the code produces final confidence 0.69 (rounded), while the
claimed formula (no rounding) gives 0.6875 — so the claim's equality is
false there. -/
theorem weak_branch_confidence_counterexample :
    (reconcile "TRUE" (675/1000) (1/3) 1 (1/2)).2 = 69/100 ∧
      specFinalConfidence (675/1000) (1/3) 1 (1/2) = 6875/10000 ∧
      (69/100 : ℚ) ≠ 6875/10000 := by
  with_unfolding_all decide

/-- Claim C3 (amended): when the strong-signal condition does not hold,
the final verdict is TRUE if `crossSourceAgreement ≥ 0.70` or
`truthScore ≥ 0.70`, FALSE if `crossSourceAgreement ≤ 0.30` or
`truthScore ≤ 0.30`, else NEEDS VERIFICATION; and the final confidence
is the average of the calibrator's confidence and
`max(0.7 * max(|truthScore-0.5|*2, crossSourceAgreement), 0.5 * avgSourceCredibility)`,
**rounded to two decimal places** and then clamped to [0.01, 0.99]. -/
theorem weak_branch_formula (v : String) (c ts ag cred : ℚ)
    (h : ¬ (((v = "TRUE" ∨ v = "FALSE") ∧ c ≥ 80/100) ∨ ts ≥ 90/100 ∨ ts ≤ 10/100)) :
    reconcile v c ts ag cred =
      (if ag ≥ 70/100 ∨ ts ≥ 70/100 then "TRUE"
       else if ag ≤ 30/100 ∨ ts ≤ 30/100 then "FALSE"
       else "NEEDS VERIFICATION",
       max (1/100) (min (99/100)
         (round2 ((max ((7/10) * max (|ts - 1/2| * 2) ag) ((1/2) * cred) + c) / 2)))) := by
  unfold reconcile
  rw [if_neg h]

/-- Witness for the amended C3 at a concrete weak input: agreement 1
forces verdict TRUE, and the confidence is the rounded clamped average
(here (0.7 + 0.5)/2 = 0.6 exactly). -/
theorem weak_branch_formula_witness :
    reconcile "NEEDS VERIFICATION" (1/2) (1/2) 1 (1/2) = ("TRUE", 6/10) := by
  rw [weak_branch_formula "NEEDS VERIFICATION" (1/2) (1/2) 1 (1/2)
    (by with_unfolding_all decide)]
  with_unfolding_all decide

/-! ## C4: the truth-score invariant -/

/-- Claim C4: for every claim and evidence set, the truth score equals
refutes/(supports+refutes) when supports+refutes > 0 and exactly 0.5
otherwise (in particular on empty evidence), and it always lies in
[0, 1]. -/
theorem computeTruthScore_spec (claim : String) (evidence : List FCEv) :
    ((computeTruthScore claim evidence).truthScore =
      if (computeTruthScore claim evidence).stats.supports +
          (computeTruthScore claim evidence).stats.refutes = 0 then 1/2
      else ((computeTruthScore claim evidence).stats.refutes : ℚ) /
        (((computeTruthScore claim evidence).stats.supports +
          (computeTruthScore claim evidence).stats.refutes : ℕ) : ℚ)) ∧
    0 ≤ (computeTruthScore claim evidence).truthScore ∧
    (computeTruthScore claim evidence).truthScore ≤ 1 := by
  unfold computeTruthScore
  by_cases h0 : evidence.length = 0
  · rw [if_pos h0]
    norm_num
  · rw [if_neg h0]
    simp only []
    by_cases ht :
        (evidence.filter fun e => cueSupports (evidenceText e)).length +
          (evidence.filter fun e => cueRefutes (evidenceText e)).length = 0
    · rw [if_pos ht]
      simp only [ht, if_pos rfl]
      norm_num
    · rw [if_neg ht]
      simp only [if_neg ht]
      have hpos : (0 : ℚ) <
          (((evidence.filter fun e => cueSupports (evidenceText e)).length +
            (evidence.filter fun e => cueRefutes (evidenceText e)).length : ℕ) : ℚ) := by
        exact_mod_cast Nat.pos_of_ne_zero ht
      refine ⟨trivial, by positivity, ?_⟩
      rw [div_le_one hpos]
      exact_mod_cast Nat.le_add_left _ _

/-! ## C7: the confidence calibrator -/

/-- Claim C7: calculateConfidence equals
`clamp(0.5 - min(0.4, |sentiment|*0.25) - min(0.6, fallacyCount*0.15) +
(0.2 if evidence nonempty), [0.01, 0.99])`, and the result always lies
within [0.01, 0.99] inclusive. -/
theorem calculateConfidence_spec (s : ℚ) (fs : List String) (ev : List FCEv) :
    calculateConfidence s fs ev =
      max (1/100) (min (99/100)
        (1/2 - min (4/10) (|s| * (25/100)) - min (6/10) ((fs.length : ℚ) * (15/100)) +
          (if ev.length > 0 then 2/10 else 0))) ∧
    1/100 ≤ calculateConfidence s fs ev ∧ calculateConfidence s fs ev ≤ 99/100 := by
  unfold calculateConfidence
  refine ⟨?_, le_max_left _ _, max_le (by norm_num) (min_le_left _ _)⟩
  by_cases h : ev.length > 0 <;> simp [h]

/-! ## C5 and C6: the source credibility classifier -/

/-- The tier table only produces the values 0.95, 0.85, 0.8, 0.25, 0.5. -/
theorem tierScore_range (host : String) : 0 ≤ tierScore host ∧ tierScore host ≤ 1 := by
  unfold tierScore
  split_ifs <;> norm_num

/-- The tier table never produces 0.4. -/
theorem tierScore_ne_four_tenths (host : String) : tierScore host ≠ 4/10 := by
  unfold tierScore
  split_ifs <;> norm_num

/-- Claim C6: classifySourceQuality is total: for every URL-parser
behavior and every input string (including non-URL garbage and the
empty string) it returns a rational in [0, 1]; totality of the Lean
function models that the JS function cannot throw (the URL constructor
is the only throwing operation and it is wrapped in try/catch). -/
theorem classifySourceQuality_total_range (parseHost : String → Option String) (url : String) :
    0 ≤ classifySourceQuality parseHost url ∧ classifySourceQuality parseHost url ≤ 1 := by
  unfold classifySourceQuality
  split_ifs
  · norm_num
  · exact tierScore_range _

/-- Claim C5 (counterexample): the string "this is not a url" is not
empty and does not parse as a URL, yet classifySourceQuality returns
the 0.5 default, not 0.4 as claimed for every malformed URL. -/
theorem classify_malformed_counterexample :
    classifySourceQuality (fun _ => none) "this is not a url" = 1/2 ∧
      (1/2 : ℚ) ≠ 4/10 := by
  with_unfolding_all decide

/-- Claim C5 (amended): classifySourceQuality returns 0.4 exactly when the
input is the empty string (the only falsy URL value); any other input —
well-formed or malformed — is classified through the tier table (using
the raw string as host when parsing fails), whose fall-through default
is 0.5; and the function is total, so it never throws. -/
theorem classify_point_four_iff_empty (parseHost : String → Option String) (url : String) :
    classifySourceQuality parseHost url = 4/10 ↔ url = "" := by
  constructor
  · intro h
    by_contra hne
    rw [classifySourceQuality, if_neg hne] at h
    exact tierScore_ne_four_tenths _ h
  · intro h
    rw [classifySourceQuality, if_pos h]

/-! ## C10: the "not true" cue overlap -/

/-- Claim C10: for a single evidence item whose scanned text contains
"not true" and no other cue, computeTruthScore increments both counters
(the supporting cue "true" is a substring of the refuting cue
"not true"), so it returns supports = 1, refutes = 1 and truth score
0.5 — not 1. -/
theorem notTrue_double_counts (claim : String) (e : FCEv)
    (h1 : strContains (evidenceText e) "not true" = true)
    (h2 : strContains (evidenceText e) "false" = false)
    (h3 : strContains (evidenceText e) "misinformation" = false)
    (h4 : strContains (evidenceText e) "confirmed" = false) :
    computeTruthScore claim [e] =
      { truthScore := 1/2, stats := { supports := 1, refutes := 1 } } := by
  have hTrue : strContains (evidenceText e) "true" = true := by
    rw [strContains_iff]
    exact List.IsInfix.trans ((isInfB_iff "true".data "not true".data).mp rfl)
      ((strContains_iff _ _).mp h1)
  have hsup : cueSupports (evidenceText e) = true := by
    rw [cueSupports, hTrue, Bool.true_or]
  have href : cueRefutes (evidenceText e) = true := by
    rw [cueRefutes, h2, h1, Bool.false_or, Bool.true_or]
  rw [computeTruthScore]
  simp only [List.length_cons, List.length_nil, List.filter, hsup, href]
  norm_num

/-- The witness item for C10: its scanned text is
"this is not true  " which contains "not true" and no other cue. -/
def notTrueItem : FCEv :=
  { source := "", title := "this is not true", snippet := "", url := "",
    relevance := 0, fullText := none }

/-- Witness for C10 at the concrete item. -/
theorem notTrue_double_counts_witness :
    computeTruthScore "x" [notTrueItem] =
      { truthScore := 1/2, stats := { supports := 1, refutes := 1 } } :=
  notTrue_double_counts "x" notTrueItem rfl rfl rfl rfl

/-! ## C9: URL deduplication in the evidence merge -/

/-- The URLs of a `mergeAux` output are pairwise distinct, and none of
them is in the accumulator or empty. -/
theorem mergeAux_urls_nodup (l : List MEv) (seen : List String) :
    ((mergeAux l seen).map (fun e => e.url)).Nodup ∧
      ∀ u ∈ (mergeAux l seen).map (fun e => e.url), u ∉ seen ∧ u ≠ "" := by
  induction l generalizing seen with
  | nil => simp [mergeAux]
  | cons e rest ih =>
    by_cases hc : e.url ≠ "" ∧ e.url ∉ seen
    · rw [mergeAux, if_pos hc]
      simp only [List.map_cons, List.nodup_cons]
      refine ⟨⟨?_, (ih (e.url :: seen)).1⟩, ?_⟩
      · intro hmem
        exact ((ih (e.url :: seen)).2 _ hmem).1 (List.mem_cons_self _ _)
      · intro u hu
        rcases List.mem_cons.mp hu with rfl | hu
        · exact ⟨hc.2, hc.1⟩
        · have h2 := (ih (e.url :: seen)).2 _ hu
          exact ⟨fun hs => h2.1 (List.mem_cons_of_mem _ hs), h2.2⟩
    · rw [mergeAux, if_neg hc]
      exact ih seen

/-- A non-empty URL present in the input and not yet seen survives into
the `mergeAux` output. -/
theorem mergeAux_mem_url (l : List MEv) (seen : List String) (u : String)
    (hne : u ≠ "") (hseen : u ∉ seen) (hmem : u ∈ l.map (fun e => e.url)) :
    u ∈ (mergeAux l seen).map (fun e => e.url) := by
  induction l generalizing seen with
  | nil => simp at hmem
  | cons e rest ih =>
    rw [List.map_cons] at hmem
    rcases List.mem_cons.mp hmem with heq | hm
    · have hc : e.url ≠ "" ∧ e.url ∉ seen := ⟨heq ▸ hne, heq ▸ hseen⟩
      rw [mergeAux, if_pos hc, List.map_cons]
      exact heq ▸ List.mem_cons_self _ _
    · by_cases hc : e.url ≠ "" ∧ e.url ∉ seen
      · rw [mergeAux, if_pos hc, List.map_cons]
        by_cases hu : u = e.url
        · exact hu ▸ List.mem_cons_self _ _
        · refine List.mem_cons_of_mem _ (ih (e.url :: seen) ?_ hm)
          intro hx
          rcases List.mem_cons.mp hx with h | h
          · exact hu h
          · exact hseen h
      · rw [mergeAux, if_neg hc]
        exact ih seen hseen hm

/-- In a list whose URLs are pairwise distinct, a URL that occurs at all
occurs on exactly one item. -/
theorem nodup_urls_filter_length (l : List MEv) (u : String)
    (hnd : (l.map (fun e => e.url)).Nodup) (hmem : u ∈ l.map (fun e => e.url)) :
    (l.filter (fun e => e.url == u)).length = 1 := by
  induction l with
  | nil => simp at hmem
  | cons e rest ih =>
    rw [List.map_cons, List.nodup_cons] at hnd
    rw [List.map_cons] at hmem
    rw [List.filter_cons]
    rcases List.mem_cons.mp hmem with heq | hm
    · rw [if_pos (by simp [heq])]
      have hnone : rest.filter (fun e => e.url == u) = [] := by
        rw [List.filter_eq_nil_iff]
        intro x hx hbe
        exact hnd.1 (heq ▸ (beq_iff_eq.mp hbe) ▸ List.mem_map_of_mem (fun e => e.url) hx)
      rw [hnone]
      rfl
    · rw [if_neg ?_]
      · exact ih hnd.2 hm
      · intro hbe
        exact hnd.1 ((beq_iff_eq.mp hbe) ▸ hm)

/-- Claim C9 (counterexample): items with an empty URL are dropped
entirely by `mergeEvidence` (`if (ev.url && ...)`), so merging two sets
that share the empty URL yields zero items for that URL, not exactly
one as the claim states for every shared URL. -/
theorem mergeEvidence_empty_url_counterexample :
    ((mergeEvidence
        [{ url := "", source := "s1", title := "t1", summary := "m1" }]
        [{ url := "", source := "s2", title := "t2", summary := "m2" }]).filter
      (fun e => e.url == "")).length = 0 ∧ (0 : ℕ) ≠ 1 := by
  decide

/-- Claim C9 (amended): merging two evidence sets that each contain an
item with the same non-empty URL yields exactly one item for that URL
(items with an empty URL are dropped), and in every merged evidence set
no two items share a URL. -/
theorem mergeEvidence_dedup (a b : List MEv) (u : String) (hne : u ≠ "")
    (ha : u ∈ a.map (fun e => e.url)) (hb : u ∈ b.map (fun e => e.url)) :
    ((mergeEvidence a b).filter (fun e => e.url == u)).length = 1 ∧
      ((mergeEvidence a b).map (fun e => e.url)).Nodup := by
  have hnd := (mergeAux_urls_nodup (a ++ b) []).1
  have hmem : u ∈ (a ++ b).map (fun e => e.url) := by
    rw [List.map_append]
    exact List.mem_append_left _ ha
  exact ⟨nodup_urls_filter_length _ _ hnd
    (mergeAux_mem_url _ _ _ hne (List.not_mem_nil u) hmem), hnd⟩

/-- Witness for the amended C9 at two concrete one-item sets sharing a
non-empty URL. -/
theorem mergeEvidence_dedup_witness :
    ((mergeEvidence
        [{ url := "https://example.org/x", source := "s1", title := "t1", summary := "m1" }]
        [{ url := "https://example.org/x", source := "s2", title := "t2", summary := "m2" }]).filter
      (fun e => e.url == "https://example.org/x")).length = 1 ∧
      ((mergeEvidence
        [{ url := "https://example.org/x", source := "s1", title := "t1", summary := "m1" }]
        [{ url := "https://example.org/x", source := "s2", title := "t2", summary := "m2" }]).map
        (fun e => e.url)).Nodup :=
  mergeEvidence_dedup
    [{ url := "https://example.org/x", source := "s1", title := "t1", summary := "m1" }]
    [{ url := "https://example.org/x", source := "s2", title := "t2", summary := "m2" }]
    "https://example.org/x" (by decide) (by decide) (by decide)

/-! ## C8: the retrieval cap

The source checks `if (results.length > 20) break;` only after pushing a
whole query's batch (up to 3 Wikipedia items and 1 DuckDuckGo item), so
the loop stops once the total *exceeds* 20 and the result can reach
6 * 4 = 24 items. -/

/-- One Wikipedia hit adds at most one result. -/
theorem wikiPush_length (ctx : Ctx) (claim : String) (st : SearchState) (item : WikiHit) :
    (wikiPush ctx claim st item).results.length ≤ st.results.length + 1 := by
  unfold wikiPush
  simp only []
  split_ifs <;> simp

/-- Folding `wikiPush` over a hit list adds at most its length. -/
theorem foldl_wikiPush_length (ctx : Ctx) (claim : String) (hits : List WikiHit)
    (st : SearchState) :
    (hits.foldl (wikiPush ctx claim) st).results.length ≤ st.results.length + hits.length := by
  induction hits generalizing st with
  | nil => simp
  | cons h t ih =>
    rw [List.foldl_cons]
    have h1 := wikiPush_length ctx claim st h
    have h2 := ih (wikiPush ctx claim st h)
    simp only [List.length_cons]
    omega

/-- The Wikipedia part of a query iteration adds at most 3 results. -/
theorem wikiStep_length (ctx : Ctx) (claim q : String) (st : SearchState) :
    (wikiStep ctx claim q st).results.length ≤ st.results.length + 3 := by
  unfold wikiStep
  have h1 := foldl_wikiPush_length ctx claim ((ctx.wikiSearch q).take 3) st
  have h2 : ((ctx.wikiSearch q).take 3).length ≤ 3 := List.length_take_le 3 _
  omega

/-- The DuckDuckGo part of a query iteration adds at most 1 result. -/
theorem ddgStep_length (ctx : Ctx) (claim q : String) (st : SearchState) :
    (ddgStep ctx claim q st).results.length ≤ st.results.length + 1 := by
  unfold ddgStep
  split
  · omega
  · simp only []
    split_ifs <;> simp

/-- The loop invariant: entered with at most 20 results (re-established
after every non-breaking iteration), the loop never returns more than
24 items. -/
theorem searchLoop_length_le (ctx : Ctx) (claim : String) (qs : List String)
    (st : SearchState) (calls : Nat) (h : st.results.length ≤ 20) :
    (searchLoop ctx claim qs st calls).1.length ≤ 24 := by
  induction qs generalizing st calls with
  | nil => simpa [searchLoop] using h.trans (by omega)
  | cons q rest ih =>
    rw [searchLoop]
    have h1 := wikiStep_length ctx claim q st
    have h2 := ddgStep_length ctx claim q (wikiStep ctx claim q st)
    split_ifs with hb
    · simp only []
      omega
    · exact ih _ _ (by omega)

/-- Enrichment does not change the number of items. -/
theorem enrich_length (ctx : Ctx) (items : List FCEv) :
    (enrich ctx items).length = items.length := by
  simp [enrich]

/-- Claim C8 (amended): retrieval stops early once the running total
*exceeds* 20 (the check `results.length > 20` runs after each query's
batch of at most 4 pushes), so the evidence set `searchEvidence` returns
never contains more than 24 items. -/
theorem searchEvidence_capped (ctx : Ctx) (claim : String) :
    (searchEvidence ctx claim).1.length ≤ 24 := by
  unfold searchEvidence
  simp only []
  rw [enrich_length]
  exact searchLoop_length_le ctx claim _ _ _ (by decide)

/-- Oracle context for the C8 counterexample: every query returns three
fresh Wikipedia hits and one fresh DuckDuckGo answer, all with distinct
URLs. -/
def ctx24 : Ctx :=
  { preprocess := fun s => s, sentimentOf := fun _ => 0, fallaciesOf := fun _ => [],
    wikiSearch := fun q =>
      [{ title := q ++ " A", snippet := "" },
       { title := q ++ " B", snippet := "" },
       { title := q ++ " C", snippet := "" }],
    ddgAnswer := fun q =>
      some { heading := q, abstractText := "evidence", abstractURL := "ddg:" ++ q },
    enc := fun s => s, fetchArticle := fun _ => "",
    parseURL := fun _ => none,
    fetchWikiEv := fun _ => none, fetchDdgEv := fun _ => [],
    fetchNewsEv := fun _ => [], newsKey := false, urlFetch := fun _ => none }

/-- Claim C8 (counterexample): with 4 fresh items available per query the
break check (`> 20`, after the batch) never fires before the 6 queries
run out: `searchEvidence` returns 24 items, more than the claimed cap
of 20. -/
theorem searchEvidence_24_counterexample :
    (searchEvidence ctx24 "c").1.length = 24 ∧ ¬ (24 ≤ 20) := by
  constructor
  · decide
  · decide

/-! ## C1: the Lexical Fact Layer short-circuit

Inside the checker, a fact-layer match returns the rule verdict with
confidence 0.99 and `searchEvidence` is never invoked.  The server
route, however, gathers its own external evidence *before* calling the
checker, whenever the canonical claim is longer than 5 characters — so
the request as a whole still performs retrieval calls. -/

/-- Every nationality-rule result carries confidence 0.99. -/
theorem natCheck_confidence (raw : String) (r : CheckResult)
    (h : natCheck raw = some r) : r.confidence = 99/100 := by
  unfold natCheck nationalityRules at h
  simp only [List.findSome?_cons, List.findSome?_nil] at h
  split at h
  · rename_i heq
    obtain rfl := Option.some.inj h
    split at heq
    · split at heq
      · cases heq
        rfl
      · split at heq
        · cases heq
          rfl
        · cases heq
    · cases heq
  · cases h

/-- Every vegetarian-rule result carries confidence 0.99. -/
theorem vegCheck_confidence (text raw : String) (r : CheckResult)
    (h : vegCheck text raw = some r) : r.confidence = 99/100 := by
  unfold vegCheck at h
  split at h
  · rcases Option.map_eq_some'.mp h with ⟨item, _, rfl⟩
    rfl
  · cases h

/-- Every water-rule result carries confidence 0.99. -/
theorem waterCheck_confidence (raw : String) (r : CheckResult)
    (h : waterCheck raw = some r) : r.confidence = 99/100 := by
  unfold waterCheck at h
  split at h
  · cases h
    rfl
  · cases h

/-- Every Lexical-Fact-Layer result carries confidence exactly 0.99. -/
theorem checkKnownFacts_confidence (processed raw : String) (r : CheckResult)
    (h : checkKnownFacts processed raw = some r) : r.confidence = 99/100 := by
  unfold checkKnownFacts at h
  simp only [] at h
  split at h
  · rename_i heq
    cases h
    exact natCheck_confidence _ _ heq
  · split at h
    · rename_i heq
      cases h
      exact vegCheck_confidence _ _ _ heq
    · exact waterCheck_confidence _ _ h

/-- Claim C1 (amended): for every claim matched by the Lexical Fact Layer,
`checkClaim` returns the matched rule's verdict verbatim with confidence
exactly 0.99 and performs zero evidence-retrieval calls inside the
checker (`searchEvidence` is not invoked); the server route still issues
its own external `gatherEvidence` retrievals for such claims whenever
the canonical claim is longer than 5 characters (see the
counterexample). -/
theorem factLayer_shortcircuit (ctx : Ctx) (claim : String) (r : CheckResult)
    (h : checkKnownFacts (ctx.preprocess claim) claim = some r) :
    checkClaim ctx claim = (r, 0) ∧ r.confidence = 99/100 := by
  constructor
  · unfold checkClaim
    simp only [h]
  · exact checkKnownFacts_confidence _ _ _ h

/-- A context whose oracles are all trivial: no network result, no URL
parses, the preprocessor is the identity. -/
def ctxTriv : Ctx :=
  { preprocess := fun s => s, sentimentOf := fun _ => 0, fallaciesOf := fun _ => [],
    wikiSearch := fun _ => [], ddgAnswer := fun _ => none,
    enc := fun s => s, fetchArticle := fun _ => "",
    parseURL := fun _ => none,
    fetchWikiEv := fun _ => none, fetchDdgEv := fun _ => [],
    fetchNewsEv := fun _ => [], newsKey := false, urlFetch := fun _ => none }

/-- Witness for the amended C1 at the claim "water is wet". -/
theorem factLayer_shortcircuit_witness :
    checkClaim ctxTriv "water is wet" =
      (makeDirectVerdict "water is wet" "TRUE" (99/100) "Water is wet.", 0) ∧
      (makeDirectVerdict "water is wet" "TRUE" (99/100) "Water is wet.").confidence = 99/100 :=
  factLayer_shortcircuit ctxTriv "water is wet"
    (makeDirectVerdict "water is wet" "TRUE" (99/100) "Water is wet.") rfl

/-- Claim C1 (counterexample): for the fact-layer-matched claim
"narendra modi is american" the final verdict is the rule's FALSE with
confidence 0.99, but the request still performs 2 evidence-retrieval
calls (the server's `gatherEvidence` runs before the checker because the
canonical claim is longer than 5 characters) — not 0 as claimed. -/
theorem analyze_factLayer_retrieves_counterexample :
    (analyzeCore ctxTriv "narendra modi is american").map (fun a => a.retrievalCalls) =
        some 2 ∧
      (analyzeCore ctxTriv "narendra modi is american").map (fun a => a.finalVerdict) =
        some "FALSE" ∧
      (analyzeCore ctxTriv "narendra modi is american").map (fun a => a.finalConfidence) =
        some (99/100) ∧
      checkKnownFacts (ctxTriv.preprocess "narendra modi is american")
          "narendra modi is american" ≠ none ∧
      (2 : Nat) ≠ 0 := by
  with_unfolding_all decide
